import Mathlib

/-!
# QT-config mode switch and PING handshake (`03_handshake.cpp`)

A shallow embedding of `main` from `03_handshake.cpp`.  The program is a straight line of
libusb calls with an early return after each check.  Every library call site is executed at
most once, so the outside world is a record holding one response per call site
(`Transport`), and a run yields the process exit code together with the ordered trace of
everything the program did: library calls (with the arguments passed and the value
returned), the settle sleep, and the lines written to `cerr` and `cout`.
-/

namespace Handshake

/-- A non-null `libusb_device_handle *`; the null pointer is `none` in `Option Handle`. -/
abbrev Handle := Nat

/-- An `unsigned char [16]` array: sixteen bytes. -/
abbrev Buf := { l : List Nat // l.length = 16 }

def QT_VENDOR_ID : Int := 0x05ac
def QT_PRODUCT_ID : Int := 0x12a8
def QT_CONFIG_INDEX : Int := 2
def USBMUX_CONFIG_INDEX : Int := 1
def PING_PACKET_SIZE : Nat := 16

/-- The initialiser of `ping_packet`. -/
def ping_packet : List Nat :=
  [0x10, 0x00, 0x00, 0x00, 0x67, 0x6E, 0x69, 0x70,
   0x00, 0x00, 0x00, 0x00, 0x01, 0x00, 0x00, 0x00]

def out_endpoint_address : Nat := 0x02
def in_endpoint_address : Nat := 0x81

/-- One observable action of the program, in the order of execution.  Library calls carry
the arguments passed and, last, what the library answered. -/
inductive Event
  | libusb_init (rc : Int)
  | libusb_open_device_with_vid_pid (vid pid : Int) (ret : Option Handle)
  | libusb_control_transfer (h : Handle) (bmRequestType bRequest wValue wIndex : Nat)
      (wLength timeout : Nat) (rc : Int)
  | sleep_for (ms : Nat)
  | libusb_close (h : Handle)
  | libusb_set_configuration (h : Handle) (configuration : Int) (rc : Int)
  | libusb_claim_interface (h : Handle) (iface : Int) (rc : Int)
  | libusb_bulk_transfer (h : Handle) (endpoint : Nat) (data : List Nat) (length : Nat)
      (timeout : Nat) (rc : Int) (transferred : Int)
  | libusb_release_interface (h : Handle) (iface : Int) (rc : Int)
  | libusb_exit
  | cerr (line : String)
  | cout (line : String)
  deriving DecidableEq, Repr

/-- The responses of the outside world, one per call site of `main`.

* `errorName` is `libusb_error_name`.
* `open1`, `open2` answer the two `libusb_open_device_with_vid_pid` calls.
* `writeTransferred` is what the bulk write stores through `&transferred`.
* `stack` is what the uninitialised array `received_ping` happens to hold.
* `readData` are the bytes the bulk read stores into `received_ping` (from offset 0); the
  count it stores through `&transferred` is their number. -/
structure Transport where
  errorName : Int → String
  initRc : Int
  open1 : Option Handle
  ctrlRc : Int
  open2 : Option Handle
  setConfigRc : Int
  claimRc : Int
  writeRc : Int
  writeTransferred : Int
  stack : Buf
  readRc : Int
  readData : List Nat
  releaseRc : Int

/-- Bytes the bulk read really stores: never more than the 16 requested. -/
def Transport.readStored (t : Transport) : List Nat :=
  t.readData.take PING_PACKET_SIZE

/-- Contents of `received_ping` after the bulk read: the stored bytes over the old
contents. -/
def Transport.received_ping (t : Transport) : List Nat :=
  t.readStored ++ t.stack.val.drop t.readStored.length

/-- The C library `memcmp` on the first `n` bytes: zero when they all agree, otherwise the
difference of the first pair that differs.  (The last equation also covers reading past the
end of a list, which a 16-byte array compared over 16 bytes never does.) -/
def memcmp : List Nat → List Nat → Nat → Int
  | a :: as, b :: bs, n + 1 => if a = b then memcmp as bs n else (a : Int) - (b : Int)
  | _, _, _ => 0

/-- Result of a run of `main`. -/
structure Run where
  exitCode : Int
  trace : List Event

/-- The function `main` of `03_handshake.cpp`. -/
def main (t : Transport) : Run :=
  -- Initialize libusb
  let tr := [Event.libusb_init t.initRc]
  if t.initRc ≠ 0 then
    ⟨1, tr ++ [.cerr ("Error initializing libusb: " ++ t.errorName t.initRc)]⟩
  else
  -- Find the device
  let tr := tr ++ [.libusb_open_device_with_vid_pid QT_VENDOR_ID QT_PRODUCT_ID t.open1]
  match t.open1 with
  | none => ⟨1, tr ++ [.cerr "Error: Device not found.", .libusb_exit]⟩
  | some dev_handle =>
  -- Enable QT-Config
  let tr := tr ++ [.libusb_control_transfer dev_handle 0x40 0x52 0x00 0x02 0 1000 t.ctrlRc]
  if t.ctrlRc < 0 then
    ⟨1, tr ++ [.cerr ("Error enabling QT-Config: " ++ t.errorName t.ctrlRc),
               .libusb_close dev_handle, .libusb_exit]⟩
  else
  let tr := tr ++ [.cout "Enabled QT-Config. Waiting for device reconnection..."]
  -- Allow time for device to reconnect
  let tr := tr ++ [.sleep_for 500]
  -- Re-open the device with QT-Config active
  let tr := tr ++ [.libusb_close dev_handle]
  let tr := tr ++ [.libusb_open_device_with_vid_pid QT_VENDOR_ID QT_PRODUCT_ID t.open2]
  match t.open2 with
  | none => ⟨1, tr ++ [.cerr "Error: Device not found after reconnection.", .libusb_exit]⟩
  | some dev_handle =>
  -- Set active configuration to QT config
  let tr := tr ++ [.libusb_set_configuration dev_handle QT_CONFIG_INDEX t.setConfigRc]
  if t.setConfigRc ≠ 0 then
    ⟨1, tr ++ [.cerr ("Error setting configuration: " ++ t.errorName t.setConfigRc),
               .libusb_close dev_handle, .libusb_exit]⟩
  else
  -- Claim the interface with bulk endpoints
  let tr := tr ++ [.libusb_claim_interface dev_handle 0 t.claimRc]
  if t.claimRc ≠ 0 then
    ⟨1, tr ++ [.cerr ("Error claiming interface: " ++ t.errorName t.claimRc),
               .libusb_close dev_handle, .libusb_exit]⟩
  else
  -- Send PING
  let tr := tr ++ [.libusb_bulk_transfer dev_handle out_endpoint_address ping_packet
                     PING_PACKET_SIZE 1000 t.writeRc t.writeTransferred]
  if t.writeRc ≠ 0 then
    ⟨1, tr ++ [.cerr ("Error sending PING: " ++ t.errorName t.writeRc),
               .libusb_release_interface dev_handle 0 t.releaseRc,
               .libusb_close dev_handle, .libusb_exit]⟩
  else
  let tr := tr ++ [.cout "Sent PING."]
  -- Receive PING
  let tr := tr ++ [.libusb_bulk_transfer dev_handle in_endpoint_address t.stack.val
                     PING_PACKET_SIZE 1000 t.readRc t.readStored.length]
  if t.readRc ≠ 0 then
    ⟨1, tr ++ [.cerr ("Error receiving PING: " ++ t.errorName t.readRc),
               .libusb_release_interface dev_handle 0 t.releaseRc,
               .libusb_close dev_handle, .libusb_exit]⟩
  else
  let tr := tr ++ [.cout "Received PING."]
  -- Check if the received PING is correct
  if memcmp ping_packet t.received_ping PING_PACKET_SIZE ≠ 0 then
    ⟨1, tr ++ [.cerr "Error: Received PING packet does not match sent packet.",
               .libusb_release_interface dev_handle 0 t.releaseRc,
               .libusb_close dev_handle, .libusb_exit]⟩
  else
  -- Cleanup
  ⟨0, tr ++ [.libusb_release_interface dev_handle 0 t.releaseRc,
             .libusb_close dev_handle, .libusb_exit,
             .cout "PING handshake successful!"]⟩

/-! ## Observations on a trace -/

/-- The line an event writes to the error stream, if it writes one. -/
def Event.errLine : Event → Option String
  | .cerr l => some l
  | _ => none

/-- The line an event writes to the standard output, if it writes one. -/
def Event.outLine : Event → Option String
  | .cout l => some l
  | _ => none

/-- Lines written to `cerr`, in order. -/
def stderrLines (tr : List Event) : List String := tr.filterMap Event.errLine

/-- Lines written to `cout`, in order. -/
def stdoutLines (tr : List Event) : List String := tr.filterMap Event.outLine

/-- The operations on a device that the program can ask of the USB library.  A bulk transfer
is a read when bit 7 of the endpoint address is set and a write otherwise; both carry the
number of bytes requested. -/
inductive Kind
  | openDevice
  | controlTransfer
  | setConfiguration
  | claimInterface
  | bulkWrite (length : Nat)
  | bulkRead (length : Nat)
  | releaseInterface
  | close
  deriving DecidableEq, Repr

/-- Which device operation an event is; `none` for library start-up and shutdown, the sleep
and the two output streams. -/
def Event.kind : Event → Option Kind
  | .libusb_open_device_with_vid_pid _ _ _ => some .openDevice
  | .libusb_control_transfer _ _ _ _ _ _ _ _ => some .controlTransfer
  | .libusb_close _ => some .close
  | .libusb_set_configuration _ _ _ => some .setConfiguration
  | .libusb_claim_interface _ _ _ => some .claimInterface
  | .libusb_bulk_transfer _ ep _ len _ _ _ =>
      some (if ep / 128 % 2 = 1 then .bulkRead len else .bulkWrite len)
  | .libusb_release_interface _ _ _ => some .releaseInterface
  | _ => none

/-- The device operations of a trace, in order. -/
def deviceCalls (tr : List Event) : List Kind := tr.filterMap Event.kind

/-- The device handle an event passes to the library, if it passes one. -/
def Event.handle : Event → Option Handle
  | .libusb_control_transfer h _ _ _ _ _ _ _ => some h
  | .libusb_close h => some h
  | .libusb_set_configuration h _ _ => some h
  | .libusb_claim_interface h _ _ => some h
  | .libusb_bulk_transfer h _ _ _ _ _ _ => some h
  | .libusb_release_interface h _ _ => some h
  | _ => none

/-- The handle an event obtains: a successful open. -/
def Event.opened : Event → Option Handle
  | .libusb_open_device_with_vid_pid _ _ ret => ret
  | _ => none

/-- The handle an event closes. -/
def Event.closed : Event → Option Handle
  | .libusb_close h => some h
  | _ => none

/-- The handle on which an event acquires the interface claim: a claim answered with 0. -/
def Event.claimed : Event → Option Handle
  | .libusb_claim_interface h _ rc => if rc = 0 then some h else none
  | _ => none

/-- The handle on which an event releases the interface claim. -/
def Event.released : Event → Option Handle
  | .libusb_release_interface h _ _ => some h
  | _ => none

/-- What the program holds at a point of a run: the open device handle, if any, and whether
the interface is claimed on it. -/
structure Held where
  handle : Option Handle
  claimed : Bool
  deriving DecidableEq, Repr

/-- One step of the resource discipline; `none` reports a violation.

* an open that succeeds needs no handle to be held;
* a close needs its handle to be the held one, with the claim already released;
* a claim needs its handle to be the held one and unclaimed, and acquires when answered 0;
* a release needs its handle to be the held one, with the claim acquired;
* any other call on a handle needs that handle to be the held one. -/
def Held.step (s : Held) : Event → Option Held
  | .libusb_open_device_with_vid_pid _ _ (some h) =>
      if s.handle = none then some ⟨some h, false⟩ else none
  | .libusb_close h =>
      if s.handle = some h ∧ s.claimed = false then some ⟨none, false⟩ else none
  | .libusb_claim_interface h _ rc =>
      if s.handle = some h ∧ s.claimed = false then some ⟨some h, decide (rc = 0)⟩ else none
  | .libusb_release_interface h _ _ =>
      if s.handle = some h ∧ s.claimed = true then some ⟨some h, false⟩ else none
  | .libusb_control_transfer h _ _ _ _ _ _ _ => if s.handle = some h then some s else none
  | .libusb_set_configuration h _ _ => if s.handle = some h then some s else none
  | .libusb_bulk_transfer h _ _ _ _ _ _ => if s.handle = some h then some s else none
  | _ => some s

/-- What is held after a trace, starting from `s`; `none` once the discipline is violated. -/
def Held.after : Held → List Event → Option Held
  | s, [] => some s
  | s, e :: es => (s.step e).bind fun s1 => Held.after s1 es

/-- A trace keeps the resource discipline and ends holding nothing. -/
def resourceSafe (tr : List Event) : Prop :=
  Held.after ⟨none, false⟩ tr = some ⟨none, false⟩

instance (tr : List Event) : Decidable (resourceSafe tr) := by
  unfold resourceSafe; infer_instance

/-- Nothing is held when a run starts. -/
def Held.nothing : Held := ⟨none, false⟩

/-! ## Concrete transports -/

/-- A fixed stand-in for `libusb_error_name`. -/
def sampleErrorName (rc : Int) : String :=
  if rc = -7 then "LIBUSB_ERROR_TIMEOUT" else "LIBUSB_ERROR_OTHER"

/-- Sixteen bytes of stale stack contents. -/
def staleStack : Buf := ⟨[0, 0, 0, 0, 0, 0, 0, 0, 0, 0, 0, 0, 1, 0, 0, 0], rfl⟩

/-- Every call succeeds; the device is opened as handle 7 before the switch and as handle 9
after it, the write reports 16 bytes and the read delivers the 16 bytes sent. -/
def okTransport : Transport where
  errorName := sampleErrorName
  initRc := 0
  open1 := some 7
  ctrlRc := 0
  open2 := some 9
  setConfigRc := 0
  claimRc := 0
  writeRc := 0
  writeTransferred := 16
  stack := staleStack
  readRc := 0
  readData := ping_packet
  releaseRc := 0

/-! ## How far a run gets

The checks of `main`, read off its source in order.  Each predicate says that the run gets
past every check before a given call. -/

/-- The library initialises, the first open yields `h1` and the mode-switch control transfer
is not answered with an error: the run goes on to the settle sleep. -/
def Transport.switches (t : Transport) (h1 : Handle) : Prop :=
  t.initRc = 0 ∧ t.open1 = some h1 ∧ 0 ≤ t.ctrlRc

/-- The run switches, the second open yields `h2`, and set-configuration and claim are both
answered 0: the run goes on to the bulk write. -/
def Transport.reachesSendPing (t : Transport) (h1 h2 : Handle) : Prop :=
  t.switches h1 ∧ t.open2 = some h2 ∧ t.setConfigRc = 0 ∧ t.claimRc = 0

/-- The run reaches the bulk write and the write is answered 0: it goes on to the bulk
read. -/
def Transport.reachesReceivePing (t : Transport) (h1 h2 : Handle) : Prop :=
  t.reachesSendPing h1 h2 ∧ t.writeRc = 0

/-- The run reaches the bulk read and the read is answered 0: it goes on to `memcmp`. -/
def Transport.reachesVerifyEcho (t : Transport) (h1 h2 : Handle) : Prop :=
  t.reachesReceivePing h1 h2 ∧ t.readRc = 0

instance (t : Transport) (h1 : Handle) : Decidable (t.switches h1) := by
  unfold Transport.switches; infer_instance

instance (t : Transport) (h1 h2 : Handle) : Decidable (t.reachesSendPing h1 h2) := by
  unfold Transport.reachesSendPing; infer_instance

instance (t : Transport) (h1 h2 : Handle) : Decidable (t.reachesReceivePing h1 h2) := by
  unfold Transport.reachesReceivePing; infer_instance

instance (t : Transport) (h1 h2 : Handle) : Decidable (t.reachesVerifyEcho h1 h2) := by
  unfold Transport.reachesVerifyEcho; infer_instance

/-- Every call succeeds with the byte counts one expects: the run reaches `memcmp`, the
bulk write reports 16 bytes, and the bulk read delivers the 16 bytes that were sent. -/
def Transport.everyCallSucceeds (t : Transport) (h1 h2 : Handle) : Prop :=
  t.reachesVerifyEcho h1 h2 ∧ t.writeTransferred = 16 ∧ t.readData = ping_packet

instance (t : Transport) (h1 h2 : Handle) : Decidable (t.everyCallSucceeds h1 h2) := by
  unfold Transport.everyCallSucceeds; infer_instance

/-- The first open answers with the null pointer. -/
def notFoundTransport : Transport := { okTransport with open1 := none }

/-- The bulk write is answered 0 but reports only 8 of the 16 bytes as written. -/
def shortWriteTransport : Transport := { okTransport with writeTransferred := 8 }

/-- The bulk write is answered with a timeout (`-7`) after 0 bytes. -/
def sendTimeoutTransport : Transport :=
  { okTransport with writeRc := -7, writeTransferred := 0 }

/-- The bulk read is answered 0 but delivers only the first 8 bytes of the echo; the other 8
bytes of `received_ping` keep what the stack held, here `staleStack`. -/
def shortReadTransport : Transport :=
  { okTransport with readData := [0x10, 0x00, 0x00, 0x00, 0x67, 0x6E, 0x69, 0x70] }

/-- The bulk read is answered with a timeout (`-7`) and stores nothing. -/
def receiveTimeoutTransport : Transport :=
  { okTransport with readRc := -7, readData := [] }

/-- The bulk read delivers 16 bytes that differ from the packet sent at byte 12 only. -/
def byte12Transport : Transport :=
  { okTransport with
    readData := [0x10, 0x00, 0x00, 0x00, 0x67, 0x6E, 0x69, 0x70,
                 0x00, 0x00, 0x00, 0x00, 0x02, 0x00, 0x00, 0x00] }

/-- The unsigned 32-bit integer stored little-endian in bytes `off .. off + 3` of `b`. -/
def le32 (b : List Nat) (off : Nat) : Nat :=
  b.getD off 0 + 256 * b.getD (off + 1) 0 + 65536 * b.getD (off + 2) 0
    + 16777216 * b.getD (off + 3) 0

/-! ## The stages of the handshake and their error lines -/

/-- The eight stages of the handshake that can fail, in the order they run: steps 1, 2, 4,
5, 6, 7, 8 and 9 of the state machine. -/
inductive Stage
  | firstOpen
  | modeSwitch
  | secondOpen
  | setConfiguration
  | claimInterface
  | pingSend
  | pingReceive
  | echoMatch
  deriving DecidableEq, Repr

/-- The stages in program order. -/
def Stage.all : List Stage :=
  [.firstOpen, .modeSwitch, .secondOpen, .setConfiguration, .claimInterface, .pingSend,
   .pingReceive, .echoMatch]

/-- A stage fails, in the words of the specification of the state machine:

* the device is absent at the open (steps 1 and 4);
* the mode-switch transfer result is not a success (step 2);
* set-configuration or claim fails (steps 5 and 6);
* the write is short (bytes transferred differ from the packet length) or is a transport
  error (step 7);
* the read times out, errors, or is short of the packet length (step 8);
* the received bytes are not byte-for-byte the transmitted packet (step 9). -/
def Transport.specFails (t : Transport) : Stage → Prop
  | .firstOpen => t.open1 = none
  | .modeSwitch => t.ctrlRc < 0
  | .secondOpen => t.open2 = none
  | .setConfiguration => t.setConfigRc ≠ 0
  | .claimInterface => t.claimRc ≠ 0
  | .pingSend => t.writeRc ≠ 0 ∨ t.writeTransferred ≠ ping_packet.length
  | .pingReceive => t.readRc ≠ 0 ∨ t.readStored.length < ping_packet.length
  | .echoMatch => t.received_ping ≠ ping_packet

instance (t : Transport) (st : Stage) : Decidable (t.specFails st) := by
  cases st <;> unfold Transport.specFails <;> infer_instance

/-- The first stage, in program order, that fails in the words of the specification. -/
def Transport.specFirstFailing (t : Transport) : Option Stage :=
  Stage.all.find? fun st => decide (t.specFails st)

/-- The test `main` itself makes at a stage: the condition of the `if` that guards the
stage's error branch in the source.  The bulk transfers are tested on their status alone. -/
def Transport.statusFails (t : Transport) : Stage → Prop
  | .firstOpen => t.open1 = none
  | .modeSwitch => t.ctrlRc < 0
  | .secondOpen => t.open2 = none
  | .setConfiguration => t.setConfigRc ≠ 0
  | .claimInterface => t.claimRc ≠ 0
  | .pingSend => t.writeRc ≠ 0
  | .pingReceive => t.readRc ≠ 0
  | .echoMatch => memcmp ping_packet t.received_ping PING_PACKET_SIZE ≠ 0

instance (t : Transport) (st : Stage) : Decidable (t.statusFails st) := by
  cases st <;> unfold Transport.statusFails <;> infer_instance

/-- The first stage, in program order, whose test in `main` fails. -/
def Transport.firstStatusFailure (t : Transport) : Option Stage :=
  Stage.all.find? fun st => decide (t.statusFails st)

/-- The line `main` writes to `cerr` in the error branch of a stage. -/
def Transport.message (t : Transport) : Stage → String
  | .firstOpen => "Error: Device not found."
  | .modeSwitch => "Error enabling QT-Config: " ++ t.errorName t.ctrlRc
  | .secondOpen => "Error: Device not found after reconnection."
  | .setConfiguration => "Error setting configuration: " ++ t.errorName t.setConfigRc
  | .claimInterface => "Error claiming interface: " ++ t.errorName t.claimRc
  | .pingSend => "Error sending PING: " ++ t.errorName t.writeRc
  | .pingReceive => "Error receiving PING: " ++ t.errorName t.readRc
  | .echoMatch => "Error: Received PING packet does not match sent packet."

/-- The line `main` writes to `cerr` when `libusb_init` fails. -/
def Transport.initMessage (t : Transport) : String :=
  "Error initializing libusb: " ++ t.errorName t.initRc

/-- No bulk transfer that is answered with status 0 is short: such a write reports the whole
packet as written and such a read stores a whole packet. -/
def Transport.noShortTransfer (t : Transport) : Prop :=
  (t.writeRc = 0 → t.writeTransferred = ping_packet.length) ∧
  (t.readRc = 0 → t.readStored.length = ping_packet.length)

instance (t : Transport) : Decidable t.noShortTransfer := by
  unfold Transport.noShortTransfer; infer_instance

/-- The bulk write is answered 0 but reports only 8 bytes as written, and the read then
delivers 16 bytes that differ from the packet sent at byte 12. -/
def shortWriteMismatchTransport : Transport := { byte12Transport with writeTransferred := 8 }

/-- The library fails to initialise (`-99`). -/
def initFailedTransport : Transport := { okTransport with initRc := -99 }

/-! ## The ten ways a run of `main` can end -/

theorem main_initFailed (t : Transport) (h : t.initRc ≠ 0) :
    main t = ⟨1, [.libusb_init t.initRc,
      .cerr ("Error initializing libusb: " ++ t.errorName t.initRc)]⟩ := by
  simp [main, h]

theorem main_notFound (t : Transport) (hinit : t.initRc = 0) (hopen : t.open1 = none) :
    main t = ⟨1, [.libusb_init 0,
      .libusb_open_device_with_vid_pid QT_VENDOR_ID QT_PRODUCT_ID none,
      .cerr "Error: Device not found.", .libusb_exit]⟩ := by
  simp [main, hinit, hopen]

theorem main_switchFailed (t : Transport) (h1 : Handle) (hinit : t.initRc = 0)
    (hopen : t.open1 = some h1) (hctrl : t.ctrlRc < 0) :
    main t = ⟨1, [.libusb_init 0,
      .libusb_open_device_with_vid_pid QT_VENDOR_ID QT_PRODUCT_ID (some h1),
      .libusb_control_transfer h1 0x40 0x52 0x00 0x02 0 1000 t.ctrlRc,
      .cerr ("Error enabling QT-Config: " ++ t.errorName t.ctrlRc),
      .libusb_close h1, .libusb_exit]⟩ := by
  simp [main, hinit, hopen, hctrl]

theorem main_notFoundAfter (t : Transport) (h1 : Handle) (hs : t.switches h1)
    (hopen2 : t.open2 = none) :
    main t = ⟨1, [.libusb_init 0,
      .libusb_open_device_with_vid_pid QT_VENDOR_ID QT_PRODUCT_ID (some h1),
      .libusb_control_transfer h1 0x40 0x52 0x00 0x02 0 1000 t.ctrlRc,
      .cout "Enabled QT-Config. Waiting for device reconnection...",
      .sleep_for 500,
      .libusb_close h1,
      .libusb_open_device_with_vid_pid QT_VENDOR_ID QT_PRODUCT_ID none,
      .cerr "Error: Device not found after reconnection.", .libusb_exit]⟩ := by
  obtain ⟨hinit, hopen, hctrl⟩ := hs
  simp [main, hinit, hopen, not_lt.mpr hctrl, hopen2]

theorem main_configFailed (t : Transport) (h1 h2 : Handle) (hs : t.switches h1)
    (hopen2 : t.open2 = some h2) (hcfg : t.setConfigRc ≠ 0) :
    main t = ⟨1, [.libusb_init 0,
      .libusb_open_device_with_vid_pid QT_VENDOR_ID QT_PRODUCT_ID (some h1),
      .libusb_control_transfer h1 0x40 0x52 0x00 0x02 0 1000 t.ctrlRc,
      .cout "Enabled QT-Config. Waiting for device reconnection...",
      .sleep_for 500,
      .libusb_close h1,
      .libusb_open_device_with_vid_pid QT_VENDOR_ID QT_PRODUCT_ID (some h2),
      .libusb_set_configuration h2 QT_CONFIG_INDEX t.setConfigRc,
      .cerr ("Error setting configuration: " ++ t.errorName t.setConfigRc),
      .libusb_close h2, .libusb_exit]⟩ := by
  obtain ⟨hinit, hopen, hctrl⟩ := hs
  simp [main, hinit, hopen, not_lt.mpr hctrl, hopen2, hcfg]

theorem main_claimFailed (t : Transport) (h1 h2 : Handle) (hs : t.switches h1)
    (hopen2 : t.open2 = some h2) (hcfg : t.setConfigRc = 0) (hclaim : t.claimRc ≠ 0) :
    main t = ⟨1, [.libusb_init 0,
      .libusb_open_device_with_vid_pid QT_VENDOR_ID QT_PRODUCT_ID (some h1),
      .libusb_control_transfer h1 0x40 0x52 0x00 0x02 0 1000 t.ctrlRc,
      .cout "Enabled QT-Config. Waiting for device reconnection...",
      .sleep_for 500,
      .libusb_close h1,
      .libusb_open_device_with_vid_pid QT_VENDOR_ID QT_PRODUCT_ID (some h2),
      .libusb_set_configuration h2 QT_CONFIG_INDEX 0,
      .libusb_claim_interface h2 0 t.claimRc,
      .cerr ("Error claiming interface: " ++ t.errorName t.claimRc),
      .libusb_close h2, .libusb_exit]⟩ := by
  obtain ⟨hinit, hopen, hctrl⟩ := hs
  simp [main, hinit, hopen, not_lt.mpr hctrl, hopen2, hcfg, hclaim]

theorem main_sendFailed (t : Transport) (h1 h2 : Handle) (hr : t.reachesSendPing h1 h2)
    (hw : t.writeRc ≠ 0) :
    main t = ⟨1, [.libusb_init 0,
      .libusb_open_device_with_vid_pid QT_VENDOR_ID QT_PRODUCT_ID (some h1),
      .libusb_control_transfer h1 0x40 0x52 0x00 0x02 0 1000 t.ctrlRc,
      .cout "Enabled QT-Config. Waiting for device reconnection...",
      .sleep_for 500,
      .libusb_close h1,
      .libusb_open_device_with_vid_pid QT_VENDOR_ID QT_PRODUCT_ID (some h2),
      .libusb_set_configuration h2 QT_CONFIG_INDEX 0,
      .libusb_claim_interface h2 0 0,
      .libusb_bulk_transfer h2 out_endpoint_address ping_packet PING_PACKET_SIZE 1000
        t.writeRc t.writeTransferred,
      .cerr ("Error sending PING: " ++ t.errorName t.writeRc),
      .libusb_release_interface h2 0 t.releaseRc,
      .libusb_close h2, .libusb_exit]⟩ := by
  obtain ⟨⟨hinit, hopen, hctrl⟩, hopen2, hcfg, hclaim⟩ := hr
  simp [main, hinit, hopen, not_lt.mpr hctrl, hopen2, hcfg, hclaim, hw]

theorem main_receiveFailed (t : Transport) (h1 h2 : Handle) (hr : t.reachesReceivePing h1 h2)
    (hrd : t.readRc ≠ 0) :
    main t = ⟨1, [.libusb_init 0,
      .libusb_open_device_with_vid_pid QT_VENDOR_ID QT_PRODUCT_ID (some h1),
      .libusb_control_transfer h1 0x40 0x52 0x00 0x02 0 1000 t.ctrlRc,
      .cout "Enabled QT-Config. Waiting for device reconnection...",
      .sleep_for 500,
      .libusb_close h1,
      .libusb_open_device_with_vid_pid QT_VENDOR_ID QT_PRODUCT_ID (some h2),
      .libusb_set_configuration h2 QT_CONFIG_INDEX 0,
      .libusb_claim_interface h2 0 0,
      .libusb_bulk_transfer h2 out_endpoint_address ping_packet PING_PACKET_SIZE 1000
        0 t.writeTransferred,
      .cout "Sent PING.",
      .libusb_bulk_transfer h2 in_endpoint_address t.stack.val PING_PACKET_SIZE 1000
        t.readRc t.readStored.length,
      .cerr ("Error receiving PING: " ++ t.errorName t.readRc),
      .libusb_release_interface h2 0 t.releaseRc,
      .libusb_close h2, .libusb_exit]⟩ := by
  obtain ⟨⟨⟨hinit, hopen, hctrl⟩, hopen2, hcfg, hclaim⟩, hw⟩ := hr
  simp [main, hinit, hopen, not_lt.mpr hctrl, hopen2, hcfg, hclaim, hw, hrd]

theorem main_mismatch (t : Transport) (h1 h2 : Handle) (hr : t.reachesVerifyEcho h1 h2)
    (hcmp : memcmp ping_packet t.received_ping PING_PACKET_SIZE ≠ 0) :
    main t = ⟨1, [.libusb_init 0,
      .libusb_open_device_with_vid_pid QT_VENDOR_ID QT_PRODUCT_ID (some h1),
      .libusb_control_transfer h1 0x40 0x52 0x00 0x02 0 1000 t.ctrlRc,
      .cout "Enabled QT-Config. Waiting for device reconnection...",
      .sleep_for 500,
      .libusb_close h1,
      .libusb_open_device_with_vid_pid QT_VENDOR_ID QT_PRODUCT_ID (some h2),
      .libusb_set_configuration h2 QT_CONFIG_INDEX 0,
      .libusb_claim_interface h2 0 0,
      .libusb_bulk_transfer h2 out_endpoint_address ping_packet PING_PACKET_SIZE 1000
        0 t.writeTransferred,
      .cout "Sent PING.",
      .libusb_bulk_transfer h2 in_endpoint_address t.stack.val PING_PACKET_SIZE 1000
        0 t.readStored.length,
      .cout "Received PING.",
      .cerr "Error: Received PING packet does not match sent packet.",
      .libusb_release_interface h2 0 t.releaseRc,
      .libusb_close h2, .libusb_exit]⟩ := by
  obtain ⟨⟨⟨⟨hinit, hopen, hctrl⟩, hopen2, hcfg, hclaim⟩, hw⟩, hrd⟩ := hr
  simp [main, hinit, hopen, not_lt.mpr hctrl, hopen2, hcfg, hclaim, hw, hrd, hcmp]

theorem main_success (t : Transport) (h1 h2 : Handle) (hr : t.reachesVerifyEcho h1 h2)
    (hcmp : memcmp ping_packet t.received_ping PING_PACKET_SIZE = 0) :
    main t = ⟨0, [.libusb_init 0,
      .libusb_open_device_with_vid_pid QT_VENDOR_ID QT_PRODUCT_ID (some h1),
      .libusb_control_transfer h1 0x40 0x52 0x00 0x02 0 1000 t.ctrlRc,
      .cout "Enabled QT-Config. Waiting for device reconnection...",
      .sleep_for 500,
      .libusb_close h1,
      .libusb_open_device_with_vid_pid QT_VENDOR_ID QT_PRODUCT_ID (some h2),
      .libusb_set_configuration h2 QT_CONFIG_INDEX 0,
      .libusb_claim_interface h2 0 0,
      .libusb_bulk_transfer h2 out_endpoint_address ping_packet PING_PACKET_SIZE 1000
        0 t.writeTransferred,
      .cout "Sent PING.",
      .libusb_bulk_transfer h2 in_endpoint_address t.stack.val PING_PACKET_SIZE 1000
        0 t.readStored.length,
      .cout "Received PING.",
      .libusb_release_interface h2 0 t.releaseRc,
      .libusb_close h2, .libusb_exit,
      .cout "PING handshake successful!"]⟩ := by
  obtain ⟨⟨⟨⟨hinit, hopen, hctrl⟩, hopen2, hcfg, hclaim⟩, hw⟩, hrd⟩ := hr
  simp [main, hinit, hopen, not_lt.mpr hctrl, hopen2, hcfg, hclaim, hw, hrd, hcmp]

/-! ## `memcmp` and the receive buffer -/

theorem memcmp_eq_zero_iff (a b : List Nat) (n : Nat) (ha : n ≤ a.length)
    (hb : n ≤ b.length) : memcmp a b n = 0 ↔ a.take n = b.take n := by
  induction n generalizing a b with
  | zero => simp [memcmp]
  | succ n ih =>
    cases a with
    | nil => simp at ha
    | cons x xs =>
      cases b with
      | nil => simp at hb
      | cons y ys =>
        simp only [List.length_cons, Nat.add_le_add_iff_right] at ha hb
        by_cases hxy : x = y
        · subst hxy
          simp [memcmp, ih xs ys ha hb]
        · have hne : (x : Int) - (y : Int) ≠ 0 := by omega
          simp [memcmp, hxy, hne]

theorem received_ping_of_full (t : Transport) (hfull : t.readData.length = 16) :
    t.received_ping = t.readData := by
  have hst := t.stack.property
  have htake : t.readData.take 16 = t.readData := List.take_of_length_le (by omega)
  simp [Transport.received_ping, Transport.readStored, PING_PACKET_SIZE, htake, hfull,
    List.drop_of_length_le (Nat.le_of_eq hst)]

theorem memcmp_full_eq_zero_iff (t : Transport) (hfull : t.readData.length = 16) :
    memcmp ping_packet t.received_ping PING_PACKET_SIZE = 0 ↔ t.readData = ping_packet := by
  rw [received_ping_of_full t hfull,
    memcmp_eq_zero_iff ping_packet t.readData PING_PACKET_SIZE (by decide)
      (by simp [PING_PACKET_SIZE, hfull])]
  have h1 : ping_packet.take PING_PACKET_SIZE = ping_packet := by decide
  have h2 : t.readData.take PING_PACKET_SIZE = t.readData :=
    List.take_of_length_le (by simp [PING_PACKET_SIZE, hfull])
  rw [h1, h2]
  exact eq_comm

theorem eq_ping_packet_iff_positions (l : List Nat) (hl : l.length = 16) :
    l = ping_packet ↔ ∀ i, i < 16 → l[i]? = ping_packet[i]? := by
  constructor
  · intro h i _
    rw [h]
  · intro h
    apply List.ext_getElem?
    intro i
    by_cases hi : i < 16
    · exact h i hi
    · have hp : ping_packet.length = 16 := by decide
      rw [List.getElem?_eq_none (by omega), List.getElem?_eq_none (by omega)]


theorem received_ping_length (t : Transport) : t.received_ping.length = 16 := by
  have hst := t.stack.property
  simp only [Transport.received_ping, Transport.readStored, PING_PACKET_SIZE,
    List.length_append, List.length_take, List.length_drop, hst]
  omega

theorem memcmp_received_eq_zero_iff (t : Transport) :
    memcmp ping_packet t.received_ping PING_PACKET_SIZE = 0 ↔ t.received_ping = ping_packet := by
  have hlen := received_ping_length t
  rw [memcmp_eq_zero_iff ping_packet t.received_ping PING_PACKET_SIZE (by decide)
      (by simp [PING_PACKET_SIZE, hlen])]
  have h1 : ping_packet.take PING_PACKET_SIZE = ping_packet := by decide
  have h2 : t.received_ping.take PING_PACKET_SIZE = t.received_ping :=
    List.take_of_length_le (by simp [PING_PACKET_SIZE, hlen])
  rw [h1, h2]
  exact eq_comm

/-! ## Scenario A: the device is absent -/

/-- C7: when the library initialises and the first open answers with the null pointer, the
run ends with exit code 1 and the single error line "Error: Device not found."; the trace is
the library start-up, that one open attempt, the error line and the library shutdown, so the
only device operation in it is the one open: no control transfer, no second open, no
set-configuration, claim, bulk transfer, release or close. -/
theorem device_not_found_stops_after_one_open (t : Transport) (hinit : t.initRc = 0)
    (hopen : t.open1 = none) :
    (main t).exitCode = 1 ∧
    stderrLines (main t).trace = ["Error: Device not found."] ∧
    (main t).trace =
      [.libusb_init 0, .libusb_open_device_with_vid_pid QT_VENDOR_ID QT_PRODUCT_ID none,
       .cerr "Error: Device not found.", .libusb_exit] ∧
    deviceCalls (main t).trace = [.openDevice] := by
  rw [main_notFound t hinit hopen]
  simp [stderrLines, deviceCalls, Event.errLine, Event.kind]

theorem device_not_found_stops_after_one_open_witness :
    notFoundTransport.initRc = 0 ∧ notFoundTransport.open1 = none ∧
    (main notFoundTransport).exitCode = 1 ∧
    deviceCalls (main notFoundTransport).trace = [.openDevice] :=
  ⟨by decide, by decide,
   (device_not_found_stops_after_one_open notFoundTransport (by decide) (by decide)).1,
   (device_not_found_stops_after_one_open notFoundTransport (by decide) (by decide)).2.2.2⟩

/-! ## Scenario C: every call succeeds -/

/-- C1 as stated fails: with every call succeeding and the expected byte counts, the device
operations of the run are not the eight-call sequence open, control transfer,
set-configuration, claim, write, read, release, close. -/
theorem success_trace_is_not_eight_calls :
    okTransport.everyCallSucceeds 7 9 ∧
    ¬ ((main okTransport).exitCode = 0 ∧
       deviceCalls (main okTransport).trace =
         [.openDevice, .controlTransfer, .setConfiguration, .claimInterface,
          .bulkWrite 16, .bulkRead 16, .releaseInterface, .close]) := by
  decide

/-- C1 amended: when every call succeeds with the expected byte counts, the run ends with
exit code 0, writes nothing to the error stream, ends its output with "PING handshake
successful!", and its device operations are exactly, in order: open, control transfer, close
(of the pre-switch handle), open, set-configuration, claim, bulk write of 16 bytes, bulk
read of 16 bytes, release, close. -/
theorem success_trace_is_ten_calls (t : Transport) (h1 h2 : Handle)
    (hok : t.everyCallSucceeds h1 h2) :
    (main t).exitCode = 0 ∧
    stderrLines (main t).trace = [] ∧
    (stdoutLines (main t).trace).getLast? = some "PING handshake successful!" ∧
    deviceCalls (main t).trace =
      [.openDevice, .controlTransfer, .close, .openDevice, .setConfiguration,
       .claimInterface, .bulkWrite 16, .bulkRead 16, .releaseInterface, .close] ∧
    (main t).trace.filterMap Event.handle = [h1, h1, h2, h2, h2, h2, h2, h2] := by
  obtain ⟨hr, _, hdata⟩ := hok
  have hfull : t.readData.length = 16 := by rw [hdata]; decide
  rw [main_success t h1 h2 hr ((memcmp_full_eq_zero_iff t hfull).mpr hdata)]
  simp [stderrLines, stdoutLines, deviceCalls, Event.errLine, Event.outLine, Event.kind,
    Event.handle, out_endpoint_address, in_endpoint_address, PING_PACKET_SIZE]

theorem success_trace_is_ten_calls_witness :
    okTransport.everyCallSucceeds 7 9 ∧ (main okTransport).exitCode = 0 ∧
    deviceCalls (main okTransport).trace =
      [.openDevice, .controlTransfer, .close, .openDevice, .setConfiguration,
       .claimInterface, .bulkWrite 16, .bulkRead 16, .releaseInterface, .close] :=
  ⟨by decide, (success_trace_is_ten_calls okTransport 7 9 (by decide)).1,
   (success_trace_is_ten_calls okTransport 7 9 (by decide)).2.2.2.1⟩

/-! ## SendPing -/

/-- C3 as stated fails: the run reaches the bulk write, the write reports 8 bytes instead of
16, and yet the run performs the bulk read and ends with exit code 0 and no error line. -/
theorem short_write_is_not_detected :
    shortWriteTransport.reachesSendPing 7 9 ∧
    shortWriteTransport.writeTransferred ≠ 16 ∧
    (main shortWriteTransport).exitCode = 0 ∧
    stderrLines (main shortWriteTransport).trace = [] ∧
    Kind.bulkRead 16 ∈ deviceCalls (main shortWriteTransport).trace := by
  decide

/-- C3 amended: in a run that reaches the bulk write, whatever byte count the write reports:
if the write is answered with a non-zero status, the run ends with exit code 1 and the single
error line "Error sending PING: " followed by the error name, performs no bulk read, and its
last three actions are the release of the claim on the post-switch handle, the close of that
handle and the library shutdown (one release in the whole run; one close for each of the two
handles); if the write is answered 0, the run goes on to the bulk read. -/
theorem send_failure_iff_status (t : Transport) (h1 h2 : Handle)
    (hr : t.reachesSendPing h1 h2) :
    (t.writeRc ≠ 0 →
      (main t).exitCode = 1 ∧
      stderrLines (main t).trace = ["Error sending PING: " ++ t.errorName t.writeRc] ∧
      (∀ n, Kind.bulkRead n ∉ deviceCalls (main t).trace) ∧
      (∃ pre, (main t).trace = pre ++
        [.libusb_release_interface h2 0 t.releaseRc, .libusb_close h2, .libusb_exit]) ∧
      (main t).trace.filterMap Event.released = [h2] ∧
      (main t).trace.filterMap Event.closed = [h1, h2]) ∧
    (t.writeRc = 0 →
      Kind.bulkRead 16 ∈ deviceCalls (main t).trace ∧
      "Error sending PING: " ++ t.errorName t.writeRc ∉ stderrLines (main t).trace) := by
  refine ⟨fun hw => ?_, fun hw => ?_⟩
  · rw [main_sendFailed t h1 h2 hr hw]
    refine ⟨rfl, ?_, ?_, ⟨_, (List.take_append_drop 11 _).symm⟩, ?_, ?_⟩ <;>
      simp [stderrLines, deviceCalls, Event.errLine, Event.kind, Event.released,
        Event.closed, out_endpoint_address, PING_PACKET_SIZE]
  · have hrr : t.reachesReceivePing h1 h2 := ⟨hr, hw⟩
    by_cases hrd : t.readRc = 0
    · by_cases hcmp : memcmp ping_packet t.received_ping PING_PACKET_SIZE = 0
      · rw [main_success t h1 h2 ⟨hrr, hrd⟩ hcmp]
        simp [stderrLines, deviceCalls, Event.errLine, Event.kind, out_endpoint_address,
          in_endpoint_address, PING_PACKET_SIZE]
      · rw [main_mismatch t h1 h2 ⟨hrr, hrd⟩ hcmp]
        constructor
        · simp [deviceCalls, Event.kind, out_endpoint_address,
            in_endpoint_address, PING_PACKET_SIZE]
        · intro hmem
          simp only [stderrLines, List.filterMap_cons, Event.errLine, List.filterMap_nil,
            List.mem_singleton] at hmem
          have := congrArg (fun s => s.data.take 9) hmem
          simp at this
    · rw [main_receiveFailed t h1 h2 hrr hrd]
      constructor
      · simp [deviceCalls, Event.kind, out_endpoint_address,
          in_endpoint_address, PING_PACKET_SIZE]
      · intro hmem
        simp only [stderrLines, List.filterMap_cons, Event.errLine, List.filterMap_nil,
          List.mem_singleton] at hmem
        have := congrArg (fun s => s.data.take 9) hmem
        simp at this

theorem send_failure_iff_status_witness :
    sendTimeoutTransport.reachesSendPing 7 9 ∧ sendTimeoutTransport.writeRc ≠ 0 ∧
    (main sendTimeoutTransport).exitCode = 1 ∧
    stderrLines (main sendTimeoutTransport).trace =
      ["Error sending PING: " ++ sendTimeoutTransport.errorName sendTimeoutTransport.writeRc] ∧
    okTransport.reachesSendPing 7 9 ∧ okTransport.writeRc = 0 ∧
    Kind.bulkRead 16 ∈ deviceCalls (main okTransport).trace :=
  ⟨by decide, by decide,
   ((send_failure_iff_status sendTimeoutTransport 7 9 (by decide)).1 (by decide)).1,
   ((send_failure_iff_status sendTimeoutTransport 7 9 (by decide)).1 (by decide)).2.1,
   by decide, by decide,
   ((send_failure_iff_status okTransport 7 9 (by decide)).2 (by decide)).1⟩


/-! ## ReceivePing and VerifyEcho -/

/-- C4 as stated fails: the run reaches the bulk read, the read is answered 0 but stores only
8 bytes (it reports 8 transferred), the remaining 8 bytes of the receive buffer keep what the
stack held, and the run ends with exit code 0 and "PING handshake successful!". -/
theorem short_read_can_succeed :
    shortReadTransport.reachesReceivePing 7 9 ∧
    shortReadTransport.readStored.length < 16 ∧
    Event.libusb_bulk_transfer 9 in_endpoint_address staleStack.val 16 1000 0 8
      ∈ (main shortReadTransport).trace ∧
    (main shortReadTransport).exitCode = 0 ∧
    stderrLines (main shortReadTransport).trace = [] ∧
    "PING handshake successful!" ∈ stdoutLines (main shortReadTransport).trace := by
  decide

/-- C4 amended: in a run that reaches the bulk read, whatever the receive buffer holds
before the read and whatever the read stores into it: if the read is answered with a non-zero
status (a timeout or any other transport error), the run ends with exit code 1 and the single
error line "Error receiving PING: " followed by the error name, and never prints "PING
handshake successful!"; if the read is answered 0, the run ends with exit code 0 exactly when
the 16 bytes then in the receive buffer equal the packet sent, whatever byte count the read
reports. -/
theorem receive_error_never_succeeds (t : Transport) (h1 h2 : Handle)
    (hr : t.reachesReceivePing h1 h2) :
    (t.readRc ≠ 0 →
      (main t).exitCode = 1 ∧
      stderrLines (main t).trace = ["Error receiving PING: " ++ t.errorName t.readRc] ∧
      "PING handshake successful!" ∉ stdoutLines (main t).trace) ∧
    (t.readRc = 0 → ((main t).exitCode = 0 ↔ t.received_ping = ping_packet)) := by
  refine ⟨fun hrd => ?_, fun hrd => ?_⟩
  · rw [main_receiveFailed t h1 h2 hr hrd]
    simp [stderrLines, stdoutLines, Event.errLine, Event.outLine]
  · have hcmp := memcmp_received_eq_zero_iff t
    by_cases hm : memcmp ping_packet t.received_ping PING_PACKET_SIZE = 0
    · rw [main_success t h1 h2 ⟨hr, hrd⟩ hm]
      exact ⟨fun _ => hcmp.mp hm, fun _ => rfl⟩
    · rw [main_mismatch t h1 h2 ⟨hr, hrd⟩ hm]
      exact ⟨fun h => by simp at h, fun h => absurd (hcmp.mpr h) hm⟩

theorem receive_error_never_succeeds_witness :
    receiveTimeoutTransport.reachesReceivePing 7 9 ∧ receiveTimeoutTransport.readRc ≠ 0 ∧
    (main receiveTimeoutTransport).exitCode = 1 ∧
    "PING handshake successful!" ∉ stdoutLines (main receiveTimeoutTransport).trace ∧
    byte12Transport.reachesReceivePing 7 9 ∧ byte12Transport.readRc = 0 ∧
    ((main byte12Transport).exitCode = 0 ↔ byte12Transport.received_ping = ping_packet) :=
  ⟨by decide, by decide,
   ((receive_error_never_succeeds receiveTimeoutTransport 7 9 (by decide)).1 (by decide)).1,
   ((receive_error_never_succeeds receiveTimeoutTransport 7 9 (by decide)).1 (by decide)).2.2,
   by decide, by decide,
   (receive_error_never_succeeds byte12Transport 7 9 (by decide)).2 (by decide)⟩

theorem trace_after_switch (t : Transport) (h1 : Handle) (hs : t.switches h1) :
    ∃ rest, (main t).trace =
      [.libusb_init 0,
       .libusb_open_device_with_vid_pid QT_VENDOR_ID QT_PRODUCT_ID (some h1),
       .libusb_control_transfer h1 0x40 0x52 0x00 0x02 0 1000 t.ctrlRc,
       .cout "Enabled QT-Config. Waiting for device reconnection...",
       .sleep_for 500,
       .libusb_close h1,
       .libusb_open_device_with_vid_pid QT_VENDOR_ID QT_PRODUCT_ID t.open2] ++ rest ∧
      ∀ e ∈ rest, (∀ h, e.handle = some h → t.open2 = some h) ∧
        e.kind ≠ some .openDevice ∧ ∀ ms, e ≠ .sleep_for ms := by
  cases hopen2 : t.open2 with
  | none =>
    rw [main_notFoundAfter t h1 hs hopen2]
    exact ⟨_, rfl, by
        simp [Event.handle, Event.kind, out_endpoint_address, in_endpoint_address]⟩
  | some h2 =>
    by_cases hcfg : t.setConfigRc = 0
    swap
    · rw [main_configFailed t h1 h2 hs hopen2 hcfg]
      exact ⟨_, rfl, by
        simp [Event.handle, Event.kind, out_endpoint_address, in_endpoint_address]⟩
    by_cases hclaim : t.claimRc = 0
    swap
    · rw [main_claimFailed t h1 h2 hs hopen2 hcfg hclaim]
      exact ⟨_, rfl, by
        simp [Event.handle, Event.kind, out_endpoint_address, in_endpoint_address]⟩
    have hsend : t.reachesSendPing h1 h2 := ⟨hs, hopen2, hcfg, hclaim⟩
    by_cases hw : t.writeRc = 0
    swap
    · rw [main_sendFailed t h1 h2 hsend hw]
      exact ⟨_, rfl, by
        simp [Event.handle, Event.kind, out_endpoint_address, in_endpoint_address]⟩
    by_cases hrd : t.readRc = 0
    swap
    · rw [main_receiveFailed t h1 h2 ⟨hsend, hw⟩ hrd]
      exact ⟨_, rfl, by
        simp [Event.handle, Event.kind, out_endpoint_address, in_endpoint_address]⟩
    by_cases hcmp : memcmp ping_packet t.received_ping PING_PACKET_SIZE = 0
    · rw [main_success t h1 h2 ⟨⟨hsend, hw⟩, hrd⟩ hcmp]
      exact ⟨_, rfl, by
        simp [Event.handle, Event.kind, out_endpoint_address, in_endpoint_address]⟩
    · rw [main_mismatch t h1 h2 ⟨⟨hsend, hw⟩, hrd⟩ hcmp]
      exact ⟨_, rfl, by
        simp [Event.handle, Event.kind, out_endpoint_address, in_endpoint_address]⟩

/-- C8: in a run whose mode-switch control transfer succeeds, the trace is the library
start-up, the first open (returning `h1`), the control transfer on `h1`, the progress line,
the sleep, the close of `h1`, the second open, and then a remainder in which every call that
takes a device handle takes the handle the second open returned.  So after the control
transfer `h1` is passed to the library once, to be closed, and every set-configuration, claim,
bulk transfer, release and final close is issued on the post-switch handle; the value `h1`
can reappear only if the second open returns that same value again. -/
theorem stale_handle_only_closed (t : Transport) (h1 : Handle) (hs : t.switches h1) :
    ∃ rest, (main t).trace =
      [.libusb_init 0,
       .libusb_open_device_with_vid_pid QT_VENDOR_ID QT_PRODUCT_ID (some h1),
       .libusb_control_transfer h1 0x40 0x52 0x00 0x02 0 1000 t.ctrlRc,
       .cout "Enabled QT-Config. Waiting for device reconnection...",
       .sleep_for 500,
       .libusb_close h1,
       .libusb_open_device_with_vid_pid QT_VENDOR_ID QT_PRODUCT_ID t.open2] ++ rest ∧
      (∀ e ∈ rest, ∀ h, e.handle = some h → t.open2 = some h) ∧
      (t.open2 ≠ some h1 → ∀ e ∈ rest, e.handle ≠ some h1) := by
  obtain ⟨rest, htrace, hrest⟩ := trace_after_switch t h1 hs
  exact ⟨rest, htrace, fun e he => (hrest e he).1,
    fun hne e he heq => hne ((hrest e he).1 h1 heq)⟩

theorem stale_handle_only_closed_witness :
    okTransport.switches 7 ∧
    ∃ rest, (main okTransport).trace =
      [.libusb_init 0,
       .libusb_open_device_with_vid_pid QT_VENDOR_ID QT_PRODUCT_ID (some 7),
       .libusb_control_transfer 7 0x40 0x52 0x00 0x02 0 1000 okTransport.ctrlRc,
       .cout "Enabled QT-Config. Waiting for device reconnection...",
       .sleep_for 500,
       .libusb_close 7,
       .libusb_open_device_with_vid_pid QT_VENDOR_ID QT_PRODUCT_ID okTransport.open2] ++ rest ∧
      (∀ e ∈ rest, ∀ h, e.handle = some h → okTransport.open2 = some h) ∧
      (okTransport.open2 ≠ some 7 → ∀ e ∈ rest, e.handle ≠ some 7) :=
  ⟨by decide, stale_handle_only_closed okTransport 7 (by decide)⟩

/-- C10 as stated fails: in the run where every call succeeds, when the sleep starts the
pre-switch handle 7 is still held; its close is not before the sleep but after it. -/
theorem stale_handle_open_during_wait :
    okTransport.switches 7 ∧
    ∃ pre post, (main okTransport).trace = pre ++ Event.sleep_for 500 :: post ∧
      Held.after Held.nothing pre = some ⟨some 7, false⟩ ∧
      Event.libusb_close 7 ∉ pre ∧ Event.libusb_close 7 ∈ post :=
  ⟨by decide, (main okTransport).trace.take 4, (main okTransport).trace.drop 5,
    by decide, by decide, by decide, by decide⟩

/-- C10 amended: in a run whose mode-switch control transfer succeeds, the Reconnect step
first waits the fixed settle interval, one sleep of 500 ms, while the pre-switch handle is
still held, then closes that handle, and then, holding no handle, attempts the post-switch
open; the rest of the run contains no further sleep and no further open, so there is one wait
and one post-switch open attempt. -/
theorem reconnect_waits_then_closes (t : Transport) (h1 : Handle) (hs : t.switches h1) :
    ∃ rest, (main t).trace =
      [.libusb_init 0,
       .libusb_open_device_with_vid_pid QT_VENDOR_ID QT_PRODUCT_ID (some h1),
       .libusb_control_transfer h1 0x40 0x52 0x00 0x02 0 1000 t.ctrlRc,
       .cout "Enabled QT-Config. Waiting for device reconnection..."] ++
      [.sleep_for 500, .libusb_close h1,
       .libusb_open_device_with_vid_pid QT_VENDOR_ID QT_PRODUCT_ID t.open2] ++ rest ∧
      Held.after Held.nothing
        [.libusb_init 0,
         .libusb_open_device_with_vid_pid QT_VENDOR_ID QT_PRODUCT_ID (some h1),
         .libusb_control_transfer h1 0x40 0x52 0x00 0x02 0 1000 t.ctrlRc,
         .cout "Enabled QT-Config. Waiting for device reconnection..."]
        = some ⟨some h1, false⟩ ∧
      Held.after ⟨some h1, false⟩ [.sleep_for 500, .libusb_close h1] = some Held.nothing ∧
      (∀ e ∈ rest, e.kind ≠ some .openDevice ∧ ∀ ms, e ≠ .sleep_for ms) := by
  obtain ⟨rest, htrace, hrest⟩ := trace_after_switch t h1 hs
  refine ⟨rest, by rw [htrace]; rfl, ?_, ?_, fun e he => (hrest e he).2⟩
  · simp [Held.after, Held.step, Held.nothing]
  · simp [Held.after, Held.step, Held.nothing]

theorem reconnect_waits_then_closes_witness :
    okTransport.switches 7 ∧
    ∃ rest, (main okTransport).trace =
      [.libusb_init 0,
       .libusb_open_device_with_vid_pid QT_VENDOR_ID QT_PRODUCT_ID (some 7),
       .libusb_control_transfer 7 0x40 0x52 0x00 0x02 0 1000 okTransport.ctrlRc,
       .cout "Enabled QT-Config. Waiting for device reconnection..."] ++
      [.sleep_for 500, .libusb_close 7,
       .libusb_open_device_with_vid_pid QT_VENDOR_ID QT_PRODUCT_ID okTransport.open2] ++ rest ∧
      Held.after Held.nothing
        [.libusb_init 0,
         .libusb_open_device_with_vid_pid QT_VENDOR_ID QT_PRODUCT_ID (some 7),
         .libusb_control_transfer 7 0x40 0x52 0x00 0x02 0 1000 okTransport.ctrlRc,
         .cout "Enabled QT-Config. Waiting for device reconnection..."]
        = some ⟨some 7, false⟩ ∧
      Held.after ⟨some 7, false⟩ [.sleep_for 500, .libusb_close 7] = some Held.nothing ∧
      (∀ e ∈ rest, e.kind ≠ some .openDevice ∧ ∀ ms, e ≠ .sleep_for ms) :=
  ⟨by decide, reconnect_waits_then_closes okTransport 7 (by decide)⟩


/-! ## Exit code and error line -/

theorem message_injective_in_stage (t u : Transport) (st st2 : Stage) (hne : st ≠ st2) :
    t.message st ≠ u.message st2 := by
  intro he
  have hpre := congrArg (fun s => s.data.take 9) he
  cases st <;> cases st2 <;> simp [Transport.message] at hpre hne he

theorem message_ne_initMessage (t u : Transport) (st : Stage) :
    t.message st ≠ u.initMessage := by
  intro he
  have hpre := congrArg (fun s => s.data.take 9) he
  cases st <;> simp [Transport.message, Transport.initMessage] at hpre

theorem specFails_iff_statusFails (t : Transport) (hns : t.noShortTransfer) (s : Stage) :
    t.specFails s ↔ t.statusFails s := by
  obtain ⟨hwr, hrd⟩ := hns
  cases s
  case pingSend =>
    simp only [Transport.specFails, Transport.statusFails]
    constructor
    · rintro (h | h)
      · exact h
      · exact fun h0 => h (hwr h0)
    · exact fun h => Or.inl h
  case pingReceive =>
    simp only [Transport.specFails, Transport.statusFails]
    constructor
    · rintro (h | h)
      · exact h
      · exact fun h0 => absurd (hrd h0) (Nat.ne_of_lt h)
    · exact fun h => Or.inl h
  case echoMatch =>
    simp only [Transport.specFails, Transport.statusFails]
    exact (not_congr (memcmp_received_eq_zero_iff t)).symm
  all_goals exact Iff.rfl

theorem failing_run_report (t : Transport) (st : Stage) (r : Run) (hinit : t.initRc = 0)
    (hmain : main t = r) (hcode : r.exitCode = 1)
    (herr : stderrLines r.trace = [t.message st])
    (hfirst : t.firstStatusFailure = some st) (hfails : t.statusFails st) :
    ((main t).exitCode = 0 ↔ t.initRc = 0 ∧ ∀ s, ¬ t.statusFails s) ∧
    ((main t).exitCode = 0 → stderrLines (main t).trace = []) ∧
    ((main t).exitCode ≠ 0 → (main t).exitCode = 1 ∧
      ((t.initRc ≠ 0 ∧ stderrLines (main t).trace = [t.initMessage]) ∨
       (t.initRc = 0 ∧ ∃ s, t.firstStatusFailure = some s ∧
          stderrLines (main t).trace = [t.message s]))) := by
  rw [hmain]
  refine ⟨⟨fun h => ?_, fun h => absurd hfails (h.2 st)⟩, fun h => ?_, fun _ => ?_⟩
  · rw [hcode] at h
    exact absurd h (by decide)
  · rw [hcode] at h
    exact absurd h (by decide)
  · exact ⟨hcode, Or.inr ⟨hinit, st, hfirst, herr⟩⟩

theorem exit_code_report (t : Transport) :
    ((main t).exitCode = 0 ↔ t.initRc = 0 ∧ ∀ s, ¬ t.statusFails s) ∧
    ((main t).exitCode = 0 → stderrLines (main t).trace = []) ∧
    ((main t).exitCode ≠ 0 → (main t).exitCode = 1 ∧
      ((t.initRc ≠ 0 ∧ stderrLines (main t).trace = [t.initMessage]) ∨
       (t.initRc = 0 ∧ ∃ s, t.firstStatusFailure = some s ∧
          stderrLines (main t).trace = [t.message s]))) := by
  by_cases hinit : t.initRc = 0
  swap
  · rw [main_initFailed t hinit]
    refine ⟨⟨fun h => by simp at h, fun h => absurd h.1 hinit⟩, fun h => by simp at h,
      fun _ => ⟨rfl, Or.inl ⟨hinit, ?_⟩⟩⟩
    simp [stderrLines, Event.errLine, Transport.initMessage]
  cases hopen : t.open1 with
  | none =>
    exact failing_run_report t .firstOpen _ hinit (main_notFound t hinit hopen) rfl
      (by simp [stderrLines, Event.errLine, Transport.message])
      (by simp [Transport.firstStatusFailure, Stage.all, Transport.statusFails, hopen])
      hopen
  | some h1 =>
    by_cases hctrl : t.ctrlRc < 0
    · exact failing_run_report t .modeSwitch _ hinit
        (main_switchFailed t h1 hinit hopen hctrl) rfl
        (by simp [stderrLines, Event.errLine, Transport.message])
        (by simp [Transport.firstStatusFailure, Stage.all, Transport.statusFails, hopen,
          hctrl])
        hctrl
    have hs : t.switches h1 := ⟨hinit, hopen, not_lt.mp hctrl⟩
    cases hopen2 : t.open2 with
    | none =>
      exact failing_run_report t .secondOpen _ hinit (main_notFoundAfter t h1 hs hopen2) rfl
        (by simp [stderrLines, Event.errLine, Transport.message])
        (by simp [Transport.firstStatusFailure, Stage.all, Transport.statusFails, hopen,
          hctrl, hopen2])
        hopen2
    | some h2 =>
      by_cases hcfg : t.setConfigRc = 0
      swap
      · exact failing_run_report t .setConfiguration _ hinit
          (main_configFailed t h1 h2 hs hopen2 hcfg) rfl
          (by simp [stderrLines, Event.errLine, Transport.message])
          (by simp [Transport.firstStatusFailure, Stage.all, Transport.statusFails, hopen,
            hctrl, hopen2, hcfg])
          hcfg
      by_cases hclaim : t.claimRc = 0
      swap
      · exact failing_run_report t .claimInterface _ hinit
          (main_claimFailed t h1 h2 hs hopen2 hcfg hclaim) rfl
          (by simp [stderrLines, Event.errLine, Transport.message])
          (by simp [Transport.firstStatusFailure, Stage.all, Transport.statusFails, hopen,
            hctrl, hopen2, hcfg, hclaim])
          hclaim
      have hsend : t.reachesSendPing h1 h2 := ⟨hs, hopen2, hcfg, hclaim⟩
      by_cases hw : t.writeRc = 0
      swap
      · exact failing_run_report t .pingSend _ hinit (main_sendFailed t h1 h2 hsend hw) rfl
          (by simp [stderrLines, Event.errLine, Transport.message])
          (by simp [Transport.firstStatusFailure, Stage.all, Transport.statusFails, hopen,
            hctrl, hopen2, hcfg, hclaim, hw])
          hw
      by_cases hrd : t.readRc = 0
      swap
      · exact failing_run_report t .pingReceive _ hinit
          (main_receiveFailed t h1 h2 ⟨hsend, hw⟩ hrd) rfl
          (by simp [stderrLines, Event.errLine, Transport.message])
          (by simp [Transport.firstStatusFailure, Stage.all, Transport.statusFails, hopen,
            hctrl, hopen2, hcfg, hclaim, hw, hrd])
          hrd
      by_cases hcmp : memcmp ping_packet t.received_ping PING_PACKET_SIZE = 0
      swap
      · exact failing_run_report t .echoMatch _ hinit
          (main_mismatch t h1 h2 ⟨⟨hsend, hw⟩, hrd⟩ hcmp) rfl
          (by simp [stderrLines, Event.errLine, Transport.message])
          (by simp [Transport.firstStatusFailure, Stage.all, Transport.statusFails, hopen,
            hctrl, hopen2, hcfg, hclaim, hw, hrd, hcmp])
          hcmp
      rw [main_success t h1 h2 ⟨⟨hsend, hw⟩, hrd⟩ hcmp]
      refine ⟨⟨fun _ => ⟨hinit, fun s => ?_⟩, fun _ => rfl⟩, fun _ => ?_,
        fun h => absurd rfl h⟩
      · cases s <;>
          simp [Transport.statusFails, hopen, hctrl, hopen2, hcfg, hclaim, hw, hrd, hcmp]
      · simp [stderrLines, Event.errLine]

/-- C6 as stated fails.  With a bulk write that is answered 0 but reports 8 of the 16 bytes,
the ping send stage fails in the words of the specification, and yet the exit code is 0 and
nothing is written to the error stream: the exit code is not 0 exactly when every stage
succeeds.  And when that short write is followed by an echo that differs at byte 12, the
first failing stage is ping send, but the one line written is that of the echo match. -/
theorem short_write_exit_code_zero :
    (shortWriteTransport.initRc = 0 ∧
     shortWriteTransport.specFails .pingSend ∧
     (main shortWriteTransport).exitCode = 0 ∧
     stderrLines (main shortWriteTransport).trace = [] ∧
     ¬ ((main shortWriteTransport).exitCode = 0 ↔
        ∀ s, ¬ shortWriteTransport.specFails s)) ∧
    (shortWriteMismatchTransport.initRc = 0 ∧
     shortWriteMismatchTransport.specFirstFailing = some .pingSend ∧
     stderrLines (main shortWriteMismatchTransport).trace
       = [shortWriteMismatchTransport.message .echoMatch] ∧
     shortWriteMismatchTransport.message .echoMatch
       ≠ shortWriteMismatchTransport.message .pingSend) :=
  ⟨⟨by decide, by decide, by decide, by decide,
    fun h => h.mp (by decide) .pingSend (by decide)⟩,
   by decide, by decide, by decide, by decide⟩

/-- C6 amended: for every transport, the exit code is 0 exactly when the library start-up
succeeds and the test `main` makes at each stage passes - both opens return a handle, the
mode switch returns a non-negative result, set-configuration, claim, ping send and ping
receive return status 0, and the 16 bytes of the receive buffer match the packet - the byte
counts the bulk transfers report not being examined.  A run that ends with exit code 0
writes nothing to the error stream.  Any other run ends with exit code 1 and writes exactly
one line to the error stream: the start-up line if start-up failed, else the line of the
first stage whose test fails.  The lines of two different stages are never equal, nor is a
stage line equal to the start-up line, whatever error names the library supplies.  And when
no bulk transfer answered 0 is short, a stage's test fails exactly when the stage fails in
the words of the specification, so the first failing stage is the same under both. -/
theorem exit_code_and_error_line (t : Transport) :
    ((main t).exitCode = 0 ↔ t.initRc = 0 ∧ ∀ s, ¬ t.statusFails s) ∧
    ((main t).exitCode = 0 → stderrLines (main t).trace = []) ∧
    ((main t).exitCode ≠ 0 → (main t).exitCode = 1 ∧
      ((t.initRc ≠ 0 ∧ stderrLines (main t).trace = [t.initMessage]) ∨
       (t.initRc = 0 ∧ ∃ s, t.firstStatusFailure = some s ∧
          stderrLines (main t).trace = [t.message s]))) ∧
    (∀ (u : Transport) (s s2 : Stage), s ≠ s2 → t.message s ≠ u.message s2) ∧
    (∀ (u : Transport) (s : Stage), t.message s ≠ u.initMessage) ∧
    (t.noShortTransfer →
      (∀ s, t.specFails s ↔ t.statusFails s) ∧
      t.specFirstFailing = t.firstStatusFailure ∧
      ((main t).exitCode = 0 ↔ t.initRc = 0 ∧ ∀ s, ¬ t.specFails s)) := by
  have hrep := exit_code_report t
  refine ⟨hrep.1, hrep.2.1, hrep.2.2,
    fun u s s2 h => message_injective_in_stage t u s s2 h,
    fun u s => message_ne_initMessage t u s, fun hns => ?_⟩
  have hiff := specFails_iff_statusFails t hns
  refine ⟨hiff, ?_, ?_⟩
  · unfold Transport.specFirstFailing Transport.firstStatusFailure
    congr 1
    funext st
    exact decide_eq_decide.mpr (hiff st)
  · rw [hrep.1]
    exact and_congr_right fun _ => forall_congr' fun s => not_congr (hiff s).symm

theorem exit_code_and_error_line_witness :
    (main byte12Transport).exitCode ≠ 0 ∧
    (main byte12Transport).exitCode = 1 ∧
    ((byte12Transport.initRc ≠ 0 ∧
        stderrLines (main byte12Transport).trace = [byte12Transport.initMessage]) ∨
     (byte12Transport.initRc = 0 ∧ ∃ s, byte12Transport.firstStatusFailure = some s ∧
        stderrLines (main byte12Transport).trace = [byte12Transport.message s])) ∧
    (main okTransport).exitCode = 0 ∧
    stderrLines (main okTransport).trace = [] ∧
    okTransport.noShortTransfer ∧
    okTransport.specFirstFailing = okTransport.firstStatusFailure ∧
    (main initFailedTransport).exitCode = 1 :=
  have h := exit_code_and_error_line byte12Transport
  have hok := exit_code_and_error_line okTransport
  have hinit := exit_code_and_error_line initFailedTransport
  have hz : (main okTransport).exitCode = 0 :=
    hok.1.mpr ⟨by decide, fun s => by cases s <;> decide⟩
  ⟨by decide, (h.2.2.1 (by decide)).1, (h.2.2.1 (by decide)).2, hz, hok.2.1 hz,
   by decide, (hok.2.2.2.2.2 (by decide)).2.1, (hinit.2.2.1 (by decide)).1⟩

end Handshake
